import Mathlib

/-!
Shallow embedding of the SWX time tracker core: the data model
(`TimeEntry`, `TrackerMetadata`), the persistence layer (`DataService`
over a key-value global state), the idle detection service, and the
session lifecycle engine (`SWXTimeTracker`).  Timestamps are integers
(milliseconds); the host language's fractional arithmetic in reports is
modelled with rationals.  Every durable write is recorded as an `Event`
in a trace so that ordering properties of timer cancellation and
persistence can be stated.  Host truthiness of optional numeric and
string fields (absent, zero and the empty string are falsy) is modelled
explicitly where the source relies on it.
-/

/-- Lexicographic comparison of character lists, mirroring the host
string ordering on code units (used for `entry.date < firstTrackingDate`). -/
def charListLt : List Char → List Char → Bool
  | [], [] => false
  | [], _ :: _ => true
  | _ :: _, [] => false
  | a :: as, b :: bs => a.val < b.val || (a = b && charListLt as bs)

/-- Host string `<` on the ASCII date strings used by the tracker. -/
def strLt (a b : String) : Bool := charListLt a.toList b.toList

/-- Character-list prefix test. -/
def listPrefixOf : List Char → List Char → Bool
  | [], _ => true
  | _ :: _, [] => false
  | a :: as, b :: bs => a = b && listPrefixOf as bs

/-- Host `s.startsWith(p)` used by `getEntriesForMonth`. -/
def strStartsWith (s p : String) : Bool := listPrefixOf p.toList s.toList

/-- Git commit information attached to an entry (stub field, never
populated by the core). -/
structure GitCommitInfo where
  hash : String
  message : String
  timestamp : Int
  author : String
  deriving DecidableEq

/-- A single time tracking entry (`TimeEntry` in models.ts).  `endTime`,
`duration`, `comment` and `gitCommits` are optional fields. -/
structure TimeEntry where
  environmentId : String
  id : String
  date : String
  startTime : Int
  endTime : Option Int := none
  duration : Option Int := none
  comment : Option String := none
  project : String
  workspace : String
  gitCommits : Option (List GitCommitInfo) := none
  deriving DecidableEq

/-- Cached aggregate metadata (`TrackerMetadata` in models.ts). -/
structure TrackerMetadata where
  version : String
  totalTrackedMs : Int
  projectCount : Nat
  lastSaved : Int
  firstTrackingDate : Option String := none
  deriving DecidableEq

/-- The three durable slots of the persistence port: the entry log,
the current-session slot and the metadata cache. -/
structure GlobalState where
  timeEntries : List TimeEntry := []
  currentSession : Option TimeEntry := none
  metadata : Option TrackerMetadata := none
  deriving DecidableEq

/-- Host truthiness of an optional number: absent and zero are falsy. -/
def truthyOptInt : Option Int → Bool
  | none => false
  | some v => v != 0

/-- Host truthiness of an optional string: absent and empty are falsy. -/
def truthyOptStr : Option String → Bool
  | none => false
  | some s => s ≠ ""

/-- Observable effect of one durable write or timer cancellation. -/
inductive Event where
  | cancelIdleTimer
  | cancelAutoSave
  | writeEntries
  | writeSlot
  | writeMetadata
  deriving DecidableEq

/-- Schema version constant of the data service. -/
def dsVersion : String := "1.0.0"

/-- The metadata value created by the lazy first-write path of the data
service (`initializeMetadata`): version, zero totals, `lastSaved = now`. -/
def initialMetadata (now : Int) : TrackerMetadata :=
  { version := dsVersion, totalTrackedMs := 0, projectCount := 0, lastSaved := now }

/-- `await this.getMetadata() || await this.initializeMetadata()`: read the
metadata slot, creating and durably writing the default value when absent. -/
def getOrInitMetadata (now : Int) (g : GlobalState) :
    TrackerMetadata × GlobalState × List Event :=
  match g.metadata with
  | some m => (m, g, [])
  | none =>
      let m := initialMetadata now
      (m, { g with metadata := some m }, [Event.writeMetadata])

/-- `new Set(entries.map(e => e.project)).size`. -/
def distinctProjects (l : List TimeEntry) : Nat :=
  (l.map (fun e => e.project)).dedup.length

/-- `DataService.saveEntry`: append the entry to the log, add
`entry.duration || 0` to `totalTrackedMs` (zero and absent coincide),
refresh `lastSaved`, lower `firstTrackingDate`, recompute `projectCount`
from the new log, and write the log and metadata slots in that order. -/
def saveEntryStore (now : Int) (entry : TimeEntry) (g : GlobalState) :
    GlobalState × List Event :=
  let entries := g.timeEntries ++ [entry]
  let (m0, g0, ev0) := getOrInitMetadata now g
  let ftd : Option String :=
    if !truthyOptStr m0.firstTrackingDate
        || strLt entry.date (m0.firstTrackingDate.getD "") then
      some entry.date
    else m0.firstTrackingDate
  let m1 : TrackerMetadata :=
    { m0 with
      totalTrackedMs := m0.totalTrackedMs + entry.duration.getD 0
      lastSaved := now
      firstTrackingDate := ftd
      projectCount := distinctProjects entries }
  ({ g0 with timeEntries := entries, metadata := some m1 },
    ev0 ++ [Event.writeEntries, Event.writeMetadata])

/-- A `Partial<TimeEntry>`: each field present in the patch overrides the
corresponding field of the entry. -/
structure TimeEntryPatch where
  environmentId : Option String := none
  id : Option String := none
  date : Option String := none
  startTime : Option Int := none
  endTime : Option Int := none
  duration : Option Int := none
  comment : Option String := none
  project : Option String := none
  workspace : Option String := none
  deriving DecidableEq

/-- The spread `{ ...entries[index], ...updates }`. -/
def applyPatch (e : TimeEntry) (p : TimeEntryPatch) : TimeEntry :=
  { environmentId := p.environmentId.getD e.environmentId
    id := p.id.getD e.id
    date := p.date.getD e.date
    startTime := p.startTime.getD e.startTime
    endTime := match p.endTime with | some t => some t | none => e.endTime
    duration := match p.duration with | some d => some d | none => e.duration
    comment := match p.comment with | some c => some c | none => e.comment
    project := p.project.getD e.project
    workspace := p.workspace.getD e.workspace
    gitCommits := e.gitCommits }

/-- `findIndex` + in-place replacement of the first entry whose `id`
matches; `none` when no entry matches (index -1). -/
def replaceFirstEntry (entryId : String) (p : TimeEntryPatch) :
    List TimeEntry → Option (List TimeEntry)
  | [] => none
  | e :: rest =>
      if e.id = entryId then some (applyPatch e p :: rest)
      else (replaceFirstEntry entryId p rest).map (fun l => e :: l)

/-- `DataService.updateEntry`: patch the first matching entry and write
the log; when the patch carries a `duration`, also refresh
`metadata.lastSaved` and write the metadata slot — nothing else in the
metadata is recomputed. -/
def updateEntryStore (now : Int) (entryId : String) (p : TimeEntryPatch)
    (g : GlobalState) : GlobalState × List Event :=
  match replaceFirstEntry entryId p g.timeEntries with
  | none => (g, [])
  | some entries =>
      let g1 := { g with timeEntries := entries }
      if p.duration.isSome then
        let (m0, g2, ev0) := getOrInitMetadata now g1
        ({ g2 with metadata := some { m0 with lastSaved := now } },
          Event.writeEntries :: ev0 ++ [Event.writeMetadata])
      else (g1, [Event.writeEntries])

/-- `DataService.saveCurrentSession`: overwrite the current-session slot. -/
def saveCurrentSessionStore (v : Option TimeEntry) (g : GlobalState) :
    GlobalState × List Event :=
  ({ g with currentSession := v }, [Event.writeSlot])

/-- `DataService.getAllEntries`. -/
def getAllEntriesOf (g : GlobalState) : List TimeEntry := g.timeEntries

/-- The report loop's guard `if (!entry.duration) continue`: host
truthiness, so an absent duration and a zero duration are both skipped. -/
def truthyDuration (e : TimeEntry) : Bool := truthyOptInt e.duration

/-- Host `Math.round`: floor of `q + 1/2`. -/
def jsRound (q : ℚ) : ℤ := ⌊q + 1 / 2⌋

/-- `Math.round(q * 100) / 100`: rounding to two decimal places. -/
def round2 (q : ℚ) : ℚ := (jsRound (q * 100) : ℚ) / 100

/-- `entry.duration / 3600000` (milliseconds to hours). -/
def entryHours (e : TimeEntry) : ℚ := (e.duration.getD 0 : ℚ) / 3600000

/-- Per-project slice of a monthly report. -/
structure ProjectReport where
  hours : ℚ
  sessions : Nat
  entries : List TimeEntry
  deriving DecidableEq

/-- Result of `getMonthlyReport`; `projects` is the insertion-ordered
project map. -/
structure MonthlyReport where
  month : String
  totalHours : ℚ
  totalSessions : Nat
  projects : List (String × ProjectReport)
  deriving DecidableEq

/-- Accumulator of the report loop. -/
structure ReportAcc where
  projectMap : List (String × ProjectReport)
  totalHours : ℚ
  totalSessions : Nat

/-- One included entry's effect on the project map: create the project's
slot on first use (insertion order preserved), then add the hours, count
the session and push the entry. -/
def bumpProject (hours : ℚ) (e : TimeEntry) :
    List (String × ProjectReport) → List (String × ProjectReport)
  | [] => [(e.project, { hours := hours, sessions := 1, entries := [e] })]
  | (k, r) :: rest =>
      if k = e.project then
        (k, { hours := r.hours + hours, sessions := r.sessions + 1,
              entries := r.entries ++ [e] }) :: rest
      else (k, r) :: bumpProject hours e rest

/-- Body of the report loop for one month entry. -/
def reportStep (acc : ReportAcc) (e : TimeEntry) : ReportAcc :=
  if truthyDuration e then
    let hours := entryHours e
    { projectMap := bumpProject hours e acc.projectMap
      totalHours := acc.totalHours + hours
      totalSessions := acc.totalSessions + 1 }
  else acc

/-- `entry.date.startsWith(yearMonth)`. -/
def inMonth (ym : String) (e : TimeEntry) : Bool := strStartsWith e.date ym

/-- `DataService.getEntriesForMonth`. -/
def getEntriesForMonth (ym : String) (entries : List TimeEntry) : List TimeEntry :=
  entries.filter (fun e => inMonth ym e)

/-- `DataService.getMonthlyReport` for an explicit `yearMonth`: filter the
log to the month, run the grouping loop, then round `totalHours` and each
project's hours to two decimals in the returned report only. -/
def getMonthlyReport (ym : String) (entries : List TimeEntry) : MonthlyReport :=
  let monthEntries := getEntriesForMonth ym entries
  let acc := monthEntries.foldl reportStep
    { projectMap := [], totalHours := 0, totalSessions := 0 }
  { month := ym
    totalHours := round2 acc.totalHours
    totalSessions := acc.totalSessions
    projects := acc.projectMap.map
      (fun p => (p.1, { p.2 with hours := round2 p.2.hours })) }

/-- In-memory state of `IdleDetectionService`. -/
structure IdleServiceState where
  idleTimerActive : Bool := false
  lastActivity : Int
  isTracking : Bool := false
  currentSession : Option TimeEntry := none
  hasTimeoutCallback : Bool := false
  activityListenerCount : Nat := 0
  deriving DecidableEq

/-- `IdleDetectionService.stopTracking`: clear the tracking fields, clear
the idle interval when one is set (emitting its cancellation), dispose
all activity listeners. -/
def svcStopTrackingPure (v : IdleServiceState) : IdleServiceState × List Event :=
  ({ v with isTracking := false, currentSession := none,
            hasTimeoutCallback := false, idleTimerActive := false,
            activityListenerCount := 0 },
    if v.idleTimerActive then [Event.cancelIdleTimer] else [])

/-- `IdleDetectionService.startTracking`: stop any previous tracking,
then set the session, the timeout callback, `lastActivity = Date.now()`,
install the six activity listeners and start the idle interval. -/
def svcStartTrackingPure (session : TimeEntry) (now : Int)
    (v : IdleServiceState) : IdleServiceState × List Event :=
  let (v1, ev) := svcStopTrackingPure v
  ({ v1 with isTracking := true, currentSession := some session,
             hasTimeoutCallback := true, lastActivity := now,
             activityListenerCount := 6, idleTimerActive := true }, ev)

/-- `IdleDetectionService.updateActivity`: refresh `lastActivity` only
while tracking. -/
def updateActivity (now : Int) (v : IdleServiceState) : IdleServiceState :=
  if v.isTracking then { v with lastActivity := now } else v

/-- `IdleDetectionService.getIdleTime`. -/
def getIdleTime (now : Int) (v : IdleServiceState) : Int := now - v.lastActivity

/-- `IdleDetectionService.shouldResumeSession`: a falsy (zero) `startTime`
refuses resumption outright; otherwise resume exactly when the session
age is strictly below the idle threshold. -/
def shouldResumeSession (now idleThreshold : Int) (session : TimeEntry) : Bool :=
  if session.startTime = 0 then false
  else decide (now - session.startTime < idleThreshold)

/-- `IdleDetectionService.autoStopOldSession`: cap the stale session at
`startTime + idleThreshold`. -/
def autoStopOldSession (idleThreshold : Int) (session : TimeEntry) : TimeEntry :=
  { session with endTime := some (session.startTime + idleThreshold),
                 duration := some idleThreshold }

/-- Result of `IdleDetectionService.getIdleStatus`. -/
structure IdleStatus where
  isTracking : Bool
  idleTimeMs : Int
  idleThresholdMs : Int
  isIdle : Bool
  deriving DecidableEq

/-- `IdleDetectionService.getIdleStatus`: purely derived, no side effects. -/
def getIdleStatus (now idleThreshold : Int) (v : IdleServiceState) : IdleStatus :=
  { isTracking := v.isTracking
    idleTimeMs := getIdleTime now v
    idleThresholdMs := idleThreshold
    isIdle := getIdleTime now v > idleThreshold }

/-- The engine's `SessionState` (models.ts). -/
structure SessionState where
  isTracking : Bool
  currentSession : Option TimeEntry := none
  lastActivity : Int
  deriving DecidableEq

/-- Whole-system state: durable store, engine session state, idle
service state, the auto-save interval flag and the trace of observable
effects (in emission order). -/
structure Sys where
  store : GlobalState
  session : SessionState
  svc : IdleServiceState
  autoSaveActive : Bool := false
  trace : List Event := []
  deriving DecidableEq

/-- Run a data-service operation against the durable store, appending
its emitted events to the trace. -/
def runStore (f : GlobalState → GlobalState × List Event) (s : Sys) : Sys :=
  let (g, ev) := f s.store
  { s with store := g, trace := s.trace ++ ev }

/-- Idle service stop, lifted to the whole system. -/
def svcStopOp (s : Sys) : Sys :=
  let (v, ev) := svcStopTrackingPure s.svc
  { s with svc := v, trace := s.trace ++ ev }

/-- Idle service start, lifted to the whole system. -/
def svcStartOp (session : TimeEntry) (now : Int) (s : Sys) : Sys :=
  let (v, ev) := svcStartTrackingPure session now s.svc
  { s with svc := v, trace := s.trace ++ ev }

/-- `SWXTimeTracker.stopAutoSave`: clear the checkpoint interval when
one is set. -/
def stopAutoSaveOp (s : Sys) : Sys :=
  if s.autoSaveActive then
    { s with autoSaveActive := false, trace := s.trace ++ [Event.cancelAutoSave] }
  else s

/-- `SWXTimeTracker.startAutoSave`: a non-positive configured interval
disables the checkpoint timer; otherwise clear any previous timer and
start a new one. -/
def startAutoSaveOp (intervalSeconds : Int) (s : Sys) : Sys :=
  if intervalSeconds ≤ 0 then s
  else
    let s1 := stopAutoSaveOp s
    { s1 with autoSaveActive := true }

/-- The fresh `TimeEntry` allocated by `startTracking`. -/
def mkNewEntry (now : Int) (today projectName workspacePath : String) : TimeEntry :=
  { environmentId := "temp-env-id", id := toString now, date := today,
    startTime := now, project := projectName, workspace := workspacePath }

/-- `SWXTimeTracker.startTracking` (durable write succeeding): no-op when
already tracking; otherwise set the in-memory session state, start idle
detection and the checkpoint timer, then persist the session to the
current-session slot. -/
def startTrackingOp (now : Int) (today projectName workspacePath : String)
    (autoSaveInterval : Int) (s : Sys) : Sys :=
  if s.session.isTracking then s
  else
    let e := mkNewEntry now today projectName workspacePath
    let s1 := { s with session :=
      { isTracking := true, lastActivity := now, currentSession := some e } }
    let s2 := svcStartOp e now s1
    let s3 := startAutoSaveOp autoSaveInterval s2
    runStore (saveCurrentSessionStore (some e)) s3

/-- The finalization performed by the manual stop:
`endTime = now`, `duration = endTime - startTime`. -/
def finalizeEntry (now : Int) (e : TimeEntry) : TimeEntry :=
  { e with endTime := some now, duration := some (now - e.startTime) }

/-- `SWXTimeTracker.stopTracking` (both durable writes succeeding): no-op
unless tracking with a current session; otherwise finalize the session
in memory, stop idle detection, stop the checkpoint timer, append the
entry to the log, clear the slot, then leave the `Tracking` state. -/
def stopTrackingOp (now : Int) (s : Sys) : Sys :=
  match s.session.isTracking, s.session.currentSession with
  | true, some cs =>
      let cs' := finalizeEntry now cs
      let s1 := { s with session := { s.session with currentSession := some cs' } }
      let s2 := svcStopOp s1
      let s3 := stopAutoSaveOp s2
      let s4 := runStore (saveEntryStore now cs') s3
      let s5 := runStore (saveCurrentSessionStore none) s4
      { s5 with session :=
        { s5.session with isTracking := false, currentSession := none } }
  | _, _ => s

/-- `SWXTimeTracker.handleIdleTimeout`: stop the checkpoint timer, end
the session at the last-activity instant, append it to the log, clear
the slot, leave the `Tracking` state.  It does not itself stop the idle
service; the service does that after the callback returns. -/
def handleIdleTimeoutOp (now : Int) (session : TimeEntry) (lastActivity : Int)
    (s : Sys) : Sys :=
  let s1 := stopAutoSaveOp s
  let e := { session with endTime := some lastActivity,
                          duration := some (lastActivity - session.startTime) }
  let s2 := runStore (saveEntryStore now e) s1
  let s3 := runStore (saveCurrentSessionStore none) s2
  { s3 with session :=
    { s3.session with isTracking := false, currentSession := none } }

/-- One firing of the idle interval (`startIdleDetection`'s callback):
only runs while the interval is installed; returns early unless
tracking with a session and callback; when the idle time strictly
exceeds the threshold, invokes the timeout callback with the session and
`lastActivity`, then stops the service. -/
def idleTickOp (now idleThreshold : Int) (s : Sys) : Sys :=
  if !s.svc.idleTimerActive then s
  else
    match s.svc.isTracking, s.svc.currentSession, s.svc.hasTimeoutCallback with
    | true, some cs, true =>
        if getIdleTime now s.svc > idleThreshold then
          svcStopOp (handleIdleTimeoutOp now cs s.svc.lastActivity s)
        else s
    | _, _, _ => s

/-- One firing of the auto-save checkpoint interval: while tracking,
re-persist the current session to the slot with the recomputed running
`duration = now - startTime`, and keep the updated object in memory. -/
def autoSaveTickOp (now : Int) (s : Sys) : Sys :=
  if !s.autoSaveActive then s
  else
    match s.session.isTracking, s.session.currentSession with
    | true, some cs =>
        let upd := { cs with duration := some (now - cs.startTime) }
        let s1 := runStore (saveCurrentSessionStore (some upd)) s
        { s1 with session := { s1.session with currentSession := some upd } }
    | _, _ => s

/-- `SWXTimeTracker.loadExistingSession`: read the current-session slot;
for a session with a falsy `endTime`, either resume it (restart idle
detection and the checkpoint timer) when `shouldResumeSession` accepts
it, or auto-stop it with the capped end time, append it to the log and
clear the slot. -/
def loadExistingSessionOp (now idleThreshold autoSaveInterval : Int) (s : Sys) : Sys :=
  match s.store.currentSession with
  | none => s
  | some cs =>
      if truthyOptInt cs.endTime then s
      else if shouldResumeSession now idleThreshold cs then
        let s1 := { s with session :=
          { isTracking := true, currentSession := some cs, lastActivity := now } }
        let s2 := svcStartOp cs now s1
        startAutoSaveOp autoSaveInterval s2
      else
        let stopped := autoStopOldSession idleThreshold cs
        let s1 := runStore (saveEntryStore now stopped) s
        runStore (saveCurrentSessionStore none) s1

/-- Projection of the error branch of a fallible operation. -/
def errState : Except Sys Sys → Option Sys
  | Except.error s => some s
  | Except.ok _ => none

/-- `saveEntry` with a possibly failing entry-log write.  On failure the
exception propagates; the lazy metadata creation (when the metadata slot
was absent) has already been written before the failing write. -/
def saveEntryAttempt (now : Int) (entry : TimeEntry) (writeOk : Bool)
    (s : Sys) : Except Sys Sys :=
  if writeOk then Except.ok (runStore (saveEntryStore now entry) s)
  else
    let (_, g, ev) := getOrInitMetadata now s.store
    Except.error { s with store := g, trace := s.trace ++ ev }

/-- `startTracking` with a possibly failing slot write: all in-memory
mutations (session state, idle service, checkpoint timer) happen before
the durable write, so a failing write propagates with them applied. -/
def startTrackingF (now : Int) (today projectName workspacePath : String)
    (autoSaveInterval : Int) (writeOk : Bool) (s : Sys) : Except Sys Sys :=
  if s.session.isTracking then Except.ok s
  else
    let e := mkNewEntry now today projectName workspacePath
    let s1 := { s with session :=
      { isTracking := true, lastActivity := now, currentSession := some e } }
    let s2 := svcStartOp e now s1
    let s3 := startAutoSaveOp autoSaveInterval s2
    if writeOk then Except.ok (runStore (saveCurrentSessionStore (some e)) s3)
    else Except.error s3

/-- `stopTracking` with possibly failing log and slot writes: the session
object is finalized in memory and the timers are stopped before the
writes; `isTracking`/`currentSession` are cleared only after both writes
succeed. -/
def stopTrackingF (now : Int) (entryWriteOk slotWriteOk : Bool) (s : Sys) :
    Except Sys Sys :=
  match s.session.isTracking, s.session.currentSession with
  | true, some cs =>
      let cs' := finalizeEntry now cs
      let s1 := { s with session := { s.session with currentSession := some cs' } }
      let s2 := svcStopOp s1
      let s3 := stopAutoSaveOp s2
      match saveEntryAttempt now cs' entryWriteOk s3 with
      | Except.error st => Except.error st
      | Except.ok s4 =>
          if slotWriteOk then
            let s5 := runStore (saveCurrentSessionStore none) s4
            Except.ok { s5 with session :=
              { s5.session with isTracking := false, currentSession := none } }
          else Except.error s4
  | _, _ => Except.ok s

/-- Sum of `duration || 0` over a log. -/
def entriesDurSum : List TimeEntry → Int
  | [] => 0
  | e :: rest => e.duration.getD 0 + entriesDurSum rest

/-- The aggregation invariant of the metadata cache: when metadata is
present, `totalTrackedMs` is the duration sum of the log and
`projectCount` the number of distinct projects; an absent metadata slot
is allowed only for an empty log. -/
def metaInvCheck (g : GlobalState) : Bool :=
  match g.metadata with
  | none => g.timeEntries.isEmpty
  | some m =>
      m.totalTrackedMs == entriesDurSum g.timeEntries &&
      m.projectCount == distinctProjects g.timeEntries

/-- The finalization equivalence: `duration` present iff `endTime` present. -/
def entryFinalizedConsistent (e : TimeEntry) : Bool :=
  e.duration.isSome == e.endTime.isSome

/-- Index of the first occurrence of an event (list length when absent). -/
def firstIdx (a : Event) : List Event → Nat
  | [] => 0
  | b :: l => if b = a then 0 else firstIdx a l + 1

/-- Both timer cancellations occur strictly before the finalizing writes
(the log append and the slot clear) in the given trace. -/
def timersCancelledBeforeFinalWrite (tr : List Event) : Bool :=
  (firstIdx Event.cancelIdleTimer tr).blt (firstIdx Event.writeEntries tr) &&
  (firstIdx Event.cancelIdleTimer tr).blt (firstIdx Event.writeSlot tr) &&
  (firstIdx Event.cancelAutoSave tr).blt (firstIdx Event.writeEntries tr) &&
  (firstIdx Event.cancelAutoSave tr).blt (firstIdx Event.writeSlot tr)

/-- Concatenation of all entry lists of the report's project map. -/
def pmEntries (pm : List (String × ProjectReport)) : List TimeEntry :=
  (pm.map (fun p => p.2.entries)).flatten

/-- Sum of `entryHours` over a list of entries. -/
def hoursSum (l : List TimeEntry) : ℚ := (l.map entryHours).sum

/-- A finalized sample entry used by concrete instances below. -/
def entA : TimeEntry :=
  { environmentId := "temp-env-id", id := "1000", date := "2025-04-01",
    startTime := 0, project := "alpha", workspace := "/w" }

/-- A quiescent idle-service state. -/
def svcIdle : IdleServiceState := { lastActivity := 0 }

/-- A tracking system state whose last activity is at instant 100000. -/
def sysC3w : Sys :=
  { store := { timeEntries := [], currentSession := some entA, metadata := none }
    session := { isTracking := true, currentSession := some entA, lastActivity := 100000 }
    svc := { idleTimerActive := true, lastActivity := 100000, isTracking := true,
             currentSession := some entA, hasTimeoutCallback := true,
             activityListenerCount := 6 }
    autoSaveActive := true }

/-- A finalized log entry with duration 100 on project alpha. -/
def entC1 : TimeEntry :=
  { environmentId := "temp-env-id", id := "e1", date := "2025-04-01",
    startTime := 0, endTime := some 100, duration := some 100,
    project := "alpha", workspace := "/w" }

/-- A store whose metadata cache agrees with its one-entry log. -/
def storeC1 : GlobalState :=
  { timeEntries := [entC1], currentSession := none,
    metadata := some { version := "1.0.0", totalTrackedMs := 100, projectCount := 1,
                       lastSaved := 0, firstTrackingDate := some "2025-04-01" } }

/-- A tracking system state over `storeC1`. -/
def sysC1w : Sys :=
  { store := storeC1
    session := { isTracking := true, currentSession := some entA, lastActivity := 0 }
    svc := { idleTimerActive := true, lastActivity := 0, isTracking := true,
             currentSession := some entA, hasTimeoutCallback := true,
             activityListenerCount := 6 }
    autoSaveActive := true }

/-- A running (non-finalized) session started at instant 0. -/
def csC2 : TimeEntry :=
  { environmentId := "temp-env-id", id := "2000", date := "2025-04-02",
    startTime := 0, project := "alpha", workspace := "/w" }

/-- A tracking system state whose running session is `csC2`. -/
def sysC2 : Sys :=
  { store := { currentSession := some csC2 }
    session := { isTracking := true, currentSession := some csC2, lastActivity := 0 }
    svc := { idleTimerActive := true, lastActivity := 0, isTracking := true,
             currentSession := some csC2, hasTimeoutCallback := true,
             activityListenerCount := 6 }
    autoSaveActive := true }

/-- A non-finalized slot session whose `startTime` is the falsy value 0. -/
def csC4 : TimeEntry :=
  { environmentId := "temp-env-id", id := "s0", date := "1970-01-01",
    startTime := 0, project := "alpha", workspace := "/w" }

/-- A freshly started process whose slot holds `csC4`. -/
def sysC4 : Sys :=
  { store := { currentSession := some csC4 }
    session := { isTracking := false, lastActivity := 0 }
    svc := svcIdle }

/-- A non-finalized slot session with a nonzero `startTime`. -/
def csC4w : TimeEntry :=
  { environmentId := "temp-env-id", id := "s1", date := "2025-04-04",
    startTime := 10, project := "alpha", workspace := "/w" }

/-- A freshly started process whose slot holds `csC4w`. -/
def sysC4w : Sys :=
  { store := { currentSession := some csC4w }
    session := { isTracking := false, lastActivity := 0 }
    svc := svcIdle }

/-- An idle system state with empty store. -/
def sysC5a : Sys :=
  { store := {}
    session := { isTracking := false, lastActivity := 0 }
    svc := { lastActivity := 0 } }

/-- A running session on project beta started at instant 50. -/
def csC5 : TimeEntry :=
  { environmentId := "temp-env-id", id := "5000", date := "2025-04-03",
    startTime := 50, project := "beta", workspace := "/w" }

/-- A tracking system state whose running session is `csC5`. -/
def sysC5b : Sys :=
  { store := { currentSession := some csC5,
               metadata := some { version := "1.0.0", totalTrackedMs := 0,
                                  projectCount := 0, lastSaved := 0 } }
    session := { isTracking := true, currentSession := some csC5, lastActivity := 50 }
    svc := { idleTimerActive := true, lastActivity := 50, isTracking := true,
             currentSession := some csC5, hasTimeoutCallback := true,
             activityListenerCount := 6 }
    autoSaveActive := true }

/-- A running session on project gamma started at instant 50. -/
def csC6 : TimeEntry :=
  { environmentId := "temp-env-id", id := "6000", date := "2025-04-03",
    startTime := 50, project := "gamma", workspace := "/w" }

/-- A tracking system state with both timers active and metadata present. -/
def sysC6 : Sys :=
  { store := { currentSession := some csC6,
               metadata := some { version := "1.0.0", totalTrackedMs := 0,
                                  projectCount := 0, lastSaved := 0 } }
    session := { isTracking := true, currentSession := some csC6, lastActivity := 50 }
    svc := { idleTimerActive := true, lastActivity := 50, isTracking := true,
             currentSession := some csC6, hasTimeoutCallback := true,
             activityListenerCount := 6 }
    autoSaveActive := true }

/-- A non-tracking idle-service state with last activity at instant 5. -/
def svcC9 : IdleServiceState := { lastActivity := 5 }

/-- An in-month log entry whose `duration` is exactly 0 milliseconds. -/
def entC8 : TimeEntry :=
  { environmentId := "temp-env-id", id := "r0", date := "2025-04-05",
    startTime := 0, endTime := some 0, duration := some 0,
    project := "alpha", workspace := "/w" }

/-- An in-month log entry with a one-hour duration. -/
def entC10b : TimeEntry :=
  { environmentId := "temp-env-id", id := "r1", date := "2025-04-06",
    startTime := 0, endTime := some 3600000, duration := some 3600000,
    project := "beta", workspace := "/w" }

/-- Frame: stopping the idle service leaves the durable store unchanged. -/
theorem store_svcStopOp (s : Sys) : (svcStopOp s).store = s.store := rfl

/-- Frame: starting the idle service leaves the durable store unchanged. -/
theorem store_svcStartOp (e : TimeEntry) (now : Int) (s : Sys) :
    (svcStartOp e now s).store = s.store := rfl

/-- Frame: stopping the checkpoint timer leaves the durable store unchanged. -/
theorem store_stopAutoSaveOp (s : Sys) : (stopAutoSaveOp s).store = s.store := by
  unfold stopAutoSaveOp; split <;> rfl

/-- Frame: starting the checkpoint timer leaves the durable store unchanged. -/
theorem store_startAutoSaveOp (i : Int) (s : Sys) :
    (startAutoSaveOp i s).store = s.store := by
  unfold startAutoSaveOp; split
  · rfl
  · rw [show ({ stopAutoSaveOp s with autoSaveActive := true } : Sys).store =
      (stopAutoSaveOp s).store from rfl, store_stopAutoSaveOp]

/-- Running a store operation updates the store to its first component. -/
theorem store_runStore (f : GlobalState → GlobalState × List Event) (s : Sys) :
    (runStore f s).store = (f s.store).1 := rfl

/-- `saveEntry` appends exactly the given entry to the log. -/
theorem saveEntryStore_timeEntries (now : Int) (e : TimeEntry) (g : GlobalState) :
    ((saveEntryStore now e g).1).timeEntries = g.timeEntries ++ [e] := by
  unfold saveEntryStore getOrInitMetadata
  cases g.metadata <;> rfl

/-- `saveEntry` does not touch the current-session slot. -/
theorem saveEntryStore_currentSession (now : Int) (e : TimeEntry) (g : GlobalState) :
    ((saveEntryStore now e g).1).currentSession = g.currentSession := by
  unfold saveEntryStore getOrInitMetadata
  cases g.metadata <;> rfl

/-- The slot write replaces only the current-session slot. -/
theorem saveCurrentSessionStore_fst (v : Option TimeEntry) (g : GlobalState) :
    (saveCurrentSessionStore v g).1 = { g with currentSession := v } := rfl

/-- Frame: stopping the checkpoint timer leaves the engine session unchanged. -/
theorem session_stopAutoSaveOp (s : Sys) : (stopAutoSaveOp s).session = s.session := by
  unfold stopAutoSaveOp; split <;> rfl

/-- Frame: stopping the checkpoint timer leaves the idle service unchanged. -/
theorem svc_stopAutoSaveOp (s : Sys) : (stopAutoSaveOp s).svc = s.svc := by
  unfold stopAutoSaveOp; split <;> rfl

/-- Frame: starting the checkpoint timer leaves the engine session unchanged. -/
theorem session_startAutoSaveOp (i : Int) (s : Sys) :
    (startAutoSaveOp i s).session = s.session := by
  unfold startAutoSaveOp
  split
  · rfl
  · show (stopAutoSaveOp s).session = s.session
    exact session_stopAutoSaveOp s

/-- Frame: starting the checkpoint timer leaves the idle service unchanged. -/
theorem svc_startAutoSaveOp (i : Int) (s : Sys) :
    (startAutoSaveOp i s).svc = s.svc := by
  unfold startAutoSaveOp
  split
  · rfl
  · show (stopAutoSaveOp s).svc = s.svc
    exact svc_stopAutoSaveOp s

/-- A positive configured interval leaves the checkpoint timer running. -/
theorem active_startAutoSaveOp (i : Int) (s : Sys) (hi : 0 < i) :
    (startAutoSaveOp i s).autoSaveActive = true := by
  unfold startAutoSaveOp
  rw [if_neg (by omega)]

/-- The idle-timeout handler appends the session finalized at the
last-activity instant. -/
theorem handleIdleTimeoutOp_entries (now : Int) (e : TimeEntry) (la : Int) (s : Sys) :
    (handleIdleTimeoutOp now e la s).store.timeEntries =
      s.store.timeEntries ++
        [{ e with endTime := some la, duration := some (la - e.startTime) }] := by
  show ((saveEntryStore now _ (stopAutoSaveOp s).store).1).timeEntries = _
  rw [saveEntryStore_timeEntries, store_stopAutoSaveOp]

/-- The idle-timeout handler clears the current-session slot. -/
theorem handleIdleTimeoutOp_slot (now : Int) (e : TimeEntry) (la : Int) (s : Sys) :
    (handleIdleTimeoutOp now e la s).store.currentSession = none := rfl

/-- The idle-timeout handler leaves the `Tracking` state. -/
theorem handleIdleTimeoutOp_session (now : Int) (e : TimeEntry) (la : Int) (s : Sys) :
    (handleIdleTimeoutOp now e la s).session.isTracking = false ∧
    (handleIdleTimeoutOp now e la s).session.currentSession = none := ⟨rfl, rfl⟩

/-- Duration sums distribute over a one-entry append. -/
theorem entriesDurSum_append (l : List TimeEntry) (e : TimeEntry) :
    entriesDurSum (l ++ [e]) = entriesDurSum l + e.duration.getD 0 := by
  induction l with
  | nil => simp [entriesDurSum]
  | cons a t ih => simp [entriesDurSum, ih]; omega

/-- `saveEntry` preserves the aggregation invariant. -/
theorem metaInv_saveEntryStore (now : Int) (e : TimeEntry) (g : GlobalState)
    (h : metaInvCheck g = true) :
    metaInvCheck (saveEntryStore now e g).1 = true := by
  unfold metaInvCheck at h ⊢
  unfold saveEntryStore getOrInitMetadata
  cases hm : g.metadata with
  | none =>
      rw [hm] at h
      have he : g.timeEntries = [] := by
        simpa [List.isEmpty_iff] using h
      simp only [he]
      simp [entriesDurSum, initialMetadata]
  | some m =>
      rw [hm] at h
      simp only [Bool.and_eq_true, beq_iff_eq] at h
      simp [entriesDurSum_append, h.1, h.2]

/-- The aggregation invariant does not depend on the current-session slot. -/
theorem metaInv_ignores_slot (g : GlobalState) (v : Option TimeEntry) :
    metaInvCheck { g with currentSession := v } = metaInvCheck g := rfl

/-- `pmEntries` of the empty project map is empty. -/
theorem pmEntries_nil : pmEntries [] = [] := rfl

/-- `pmEntries` of a cons splits into the head's entries and the rest. -/
theorem pmEntries_cons (k : String) (r : ProjectReport)
    (rest : List (String × ProjectReport)) :
    pmEntries ((k, r) :: rest) = r.entries ++ pmEntries rest := by
  simp [pmEntries]

/-- Membership after `bumpProject`: the bumped entry joins its project's
list and nothing else changes. -/
theorem mem_pmEntries_bump (x : TimeEntry) (hq : ℚ) (e : TimeEntry)
    (pm : List (String × ProjectReport)) :
    x ∈ pmEntries (bumpProject hq e pm) ↔ x = e ∨ x ∈ pmEntries pm := by
  induction pm with
  | nil => simp [bumpProject, pmEntries]
  | cons p rest ih =>
    rcases p with ⟨k, r⟩
    by_cases hk : k = e.project
    · rw [show bumpProject hq e ((k, r) :: rest) =
        (k, { hours := r.hours + hq, sessions := r.sessions + 1,
              entries := r.entries ++ [e] }) :: rest by
          simp [bumpProject, hk]]
      rw [pmEntries_cons, pmEntries_cons]
      simp only [List.mem_append, List.mem_singleton]
      tauto
    · rw [show bumpProject hq e ((k, r) :: rest) =
        (k, r) :: bumpProject hq e rest by simp [bumpProject, hk]]
      rw [pmEntries_cons, pmEntries_cons]
      simp only [List.mem_append, ih]
      tauto

/-- The report loop counts exactly the truthy-duration entries. -/
theorem foldl_reportStep_sessions (l : List TimeEntry) (acc : ReportAcc) :
    (l.foldl reportStep acc).totalSessions =
      acc.totalSessions + (l.filter truthyDuration).length := by
  induction l generalizing acc with
  | nil => simp
  | cons e rest ih =>
    by_cases he : truthyDuration e = true
    · rw [List.foldl_cons, show reportStep acc e =
        { projectMap := bumpProject (entryHours e) e acc.projectMap,
          totalHours := acc.totalHours + entryHours e,
          totalSessions := acc.totalSessions + 1 } by simp [reportStep, he]]
      rw [ih, List.filter_cons_of_pos he]
      simp
      omega
    · rw [List.foldl_cons, show reportStep acc e = acc by
        simp [reportStep]; intro hc; exact absurd hc he]
      rw [ih, List.filter_cons_of_neg (by simpa using he)]

/-- The report loop sums the hours of exactly the truthy-duration entries. -/
theorem foldl_reportStep_hours (l : List TimeEntry) (acc : ReportAcc) :
    (l.foldl reportStep acc).totalHours =
      acc.totalHours + hoursSum (l.filter truthyDuration) := by
  induction l generalizing acc with
  | nil => simp [hoursSum]
  | cons e rest ih =>
    by_cases he : truthyDuration e = true
    · rw [List.foldl_cons, show reportStep acc e =
        { projectMap := bumpProject (entryHours e) e acc.projectMap,
          totalHours := acc.totalHours + entryHours e,
          totalSessions := acc.totalSessions + 1 } by simp [reportStep, he]]
      rw [ih, List.filter_cons_of_pos he]
      simp [hoursSum]
      ring
    · rw [List.foldl_cons, show reportStep acc e = acc by
        simp [reportStep]; intro hc; exact absurd hc he]
      rw [ih, List.filter_cons_of_neg (by simpa using he)]

/-- The report loop's project map holds exactly the processed
truthy-duration entries. -/
theorem foldl_reportStep_mem (l : List TimeEntry) (acc : ReportAcc) (x : TimeEntry) :
    x ∈ pmEntries (l.foldl reportStep acc).projectMap ↔
      x ∈ pmEntries acc.projectMap ∨ x ∈ l.filter truthyDuration := by
  induction l generalizing acc with
  | nil => simp
  | cons e rest ih =>
    by_cases he : truthyDuration e = true
    · rw [List.foldl_cons, show reportStep acc e =
        { projectMap := bumpProject (entryHours e) e acc.projectMap,
          totalHours := acc.totalHours + entryHours e,
          totalSessions := acc.totalSessions + 1 } by simp [reportStep, he]]
      rw [ih, List.filter_cons_of_pos he]
      dsimp only
      rw [mem_pmEntries_bump]
      simp only [List.mem_cons]
      tauto
    · rw [List.foldl_cons, show reportStep acc e = acc by
        simp [reportStep]; intro hc; exact absurd hc he]
      rw [ih, List.filter_cons_of_neg (by simpa using he)]

/-- Two Boolean filters compose into a conjunctive filter. -/
theorem filter_filter_bool (p q : TimeEntry → Bool) (l : List TimeEntry) :
    (l.filter q).filter p = l.filter (fun e => q e && p e) := by
  induction l with
  | nil => rfl
  | cons e rest ih =>
    by_cases hq : q e = true <;> by_cases hp : p e = true <;>
      simp [List.filter_cons, hq, hp, ih]

/-- The final per-project rounding pass does not change entry lists. -/
theorem pmEntries_roundMap (pm : List (String × ProjectReport)) :
    pmEntries (pm.map (fun p => (p.1, { p.2 with hours := round2 p.2.hours }))) =
      pmEntries pm := by
  induction pm with
  | nil => rfl
  | cons p rest ih =>
    rcases p with ⟨k, r⟩
    simp only [List.map_cons]
    rw [pmEntries_cons, pmEntries_cons, ih]

/-- An entry whose duration field is falsy is invisible to the report. -/
theorem report_skips_falsy (ym : String) (l1 l2 : List TimeEntry) (e : TimeEntry)
    (he : truthyDuration e = false) :
    getMonthlyReport ym (l1 ++ e :: l2) = getMonthlyReport ym (l1 ++ l2) := by
  have hstep : ∀ acc : ReportAcc, reportStep acc e = acc := by
    intro acc
    simp [reportStep, he]
  unfold getMonthlyReport getEntriesForMonth
  dsimp only
  by_cases hm : inMonth ym e = true
  · rw [List.filter_append, List.filter_append, List.filter_cons_of_pos hm]
    rw [List.foldl_append, List.foldl_append, List.foldl_cons, hstep]
  · rw [List.filter_append, List.filter_append,
      List.filter_cons_of_neg (by simpa using hm)]

/-- Claim C1 (amended): whenever the entry log is durably written by an
append path — `saveEntry` itself, a manual stop, an idle-timeout stop or
the stale-session auto-stop on recovery — the metadata cache keeps
`totalTrackedMs` equal to the duration sum of the log and `projectCount`
equal to the number of distinct projects, provided the invariant held
before the operation.  (`updateEntry` is excluded: it rewrites the log
without restoring the invariant, see the counterexample.) -/
theorem claim_C1_aggregation_invariant (now h interval : Int) (e : TimeEntry)
    (s : Sys) (hInv : metaInvCheck s.store = true) :
    metaInvCheck (runStore (saveEntryStore now e) s).store = true ∧
    metaInvCheck (stopTrackingOp now s).store = true ∧
    metaInvCheck (idleTickOp now h s).store = true ∧
    metaInvCheck (loadExistingSessionOp now h interval s).store = true := by
  refine ⟨?_, ?_, ?_, ?_⟩
  · rw [store_runStore]
    exact metaInv_saveEntryStore now e s.store hInv
  · rcases s with ⟨store, ⟨it, cso, la⟩, svc, asa, tr⟩
    cases it <;> cases cso <;> try exact hInv
    case true.some cs =>
      show metaInvCheck ((saveCurrentSessionStore none _).1) = true
      rw [saveCurrentSessionStore_fst, metaInv_ignores_slot]
      rw [show (runStore (saveEntryStore _ _) _).store = _ from store_runStore _ _]
      rw [store_stopAutoSaveOp, store_svcStopOp]
      exact metaInv_saveEntryStore _ _ _ hInv
  · unfold idleTickOp
    cases hTimer : s.svc.idleTimerActive
    · simpa using hInv
    · simp only [Bool.not_true, Bool.false_eq_true, if_false]
      cases hTrk : s.svc.isTracking <;> cases hCs : s.svc.currentSession <;>
        cases hCb : s.svc.hasTimeoutCallback <;> try exact hInv
      case true.some.true cs =>
        dsimp only
        by_cases hGt : getIdleTime now s.svc > h
        · rw [if_pos hGt, store_svcStopOp]
          show metaInvCheck ((saveCurrentSessionStore none _).1) = true
          rw [saveCurrentSessionStore_fst, metaInv_ignores_slot]
          rw [show (runStore (saveEntryStore _ _) _).store = _ from store_runStore _ _]
          rw [store_stopAutoSaveOp]
          exact metaInv_saveEntryStore _ _ _ hInv
        · rw [if_neg hGt]
          exact hInv
  · unfold loadExistingSessionOp
    cases hCs : s.store.currentSession with
    | none => exact hInv
    | some cs =>
      dsimp only
      by_cases hT : truthyOptInt cs.endTime = true
      · rw [if_pos hT]
        exact hInv
      · rw [if_neg hT]
        by_cases hR : shouldResumeSession now h cs = true
        · rw [if_pos hR]
          rw [store_startAutoSaveOp, store_svcStartOp]
          exact hInv
        · rw [if_neg hR]
          show metaInvCheck ((saveCurrentSessionStore none _).1) = true
          rw [saveCurrentSessionStore_fst, metaInv_ignores_slot]
          rw [show (runStore (saveEntryStore _ _) _).store = _ from store_runStore _ _]
          exact metaInv_saveEntryStore _ _ _ hInv

/-- Claim C1, counterexample to the original statement: from a store
satisfying the invariant, `updateEntry` durably rewrites the log (the
entry's duration becomes 200) yet leaves `totalTrackedMs` at 100, so the
invariant is false right after a durable log write. -/
theorem claim_C1_counterexample :
    metaInvCheck storeC1 = true ∧
    ((updateEntryStore 500 "e1" { duration := some 200 } storeC1).1).timeEntries.map
      (fun e => e.duration) = [some 200] ∧
    metaInvCheck (updateEntryStore 500 "e1" { duration := some 200 } storeC1).1 = false := by
  decide

/-- Claim C1, witness: the amended theorem applied to a concrete
invariant-satisfying state. -/
theorem claim_C1_witness :
    metaInvCheck sysC1w.store = true ∧
    metaInvCheck (runStore (saveEntryStore 7 entA) sysC1w).store = true ∧
    metaInvCheck (stopTrackingOp 7 sysC1w).store = true ∧
    metaInvCheck (idleTickOp 7 600000 sysC1w).store = true ∧
    metaInvCheck (loadExistingSessionOp 7 600000 300 sysC1w).store = true := by
  have hmain := claim_C1_aggregation_invariant 7 600000 300 entA sysC1w (by decide)
  exact ⟨by decide, hmain.1, hmain.2.1, hmain.2.2.1, hmain.2.2.2⟩

/-- Claim C2 (amended): every entry appended to the log by a stop path
(manual stop, idle timeout, stale-session auto-stop) carries both
`endTime` and `duration`, so log entries satisfy the equivalence
`duration` present iff `endTime` present; but the auto-save checkpoint
re-persists the running session to the current-session slot with a
recomputed `duration` and no `endTime`, violating the equivalence for
the slot rather than preserving it. -/
theorem claim_C2_finalization_equivalence (now h la : Int) (cs : TimeEntry) (s : Sys)
    (hTrk : s.session.isTracking = true)
    (hCs : s.session.currentSession = some cs)
    (hEnd : cs.endTime = none)
    (hAct : s.autoSaveActive = true) :
    ((autoSaveTickOp now s).store.currentSession =
        some { cs with duration := some (now - cs.startTime) } ∧
      entryFinalizedConsistent { cs with duration := some (now - cs.startTime) } = false) ∧
    ((stopTrackingOp now s).store.timeEntries =
        s.store.timeEntries ++ [finalizeEntry now cs] ∧
      entryFinalizedConsistent (finalizeEntry now cs) = true) ∧
    entryFinalizedConsistent
      { cs with endTime := some la, duration := some (la - cs.startTime) } = true ∧
    entryFinalizedConsistent (autoStopOldSession h cs) = true := by
  refine ⟨⟨?_, ?_⟩, ⟨?_, ?_⟩, rfl, rfl⟩
  · unfold autoSaveTickOp
    rw [hAct]
    simp only [Bool.not_true, Bool.false_eq_true, if_false, hTrk, hCs]
    rfl
  · simp [entryFinalizedConsistent, hEnd]
  · rcases s with ⟨store, ⟨it, cso, la'⟩, svc, asa, tr⟩
    cases it with
    | false => exact absurd hTrk (by simp)
    | true =>
      cases cso with
      | none => exact absurd hCs (by simp)
      | some c =>
        have hc : c = cs := by simpa using hCs
        subst hc
        show ((saveEntryStore now (finalizeEntry now c) _).1).timeEntries = _
        rw [saveEntryStore_timeEntries, store_stopAutoSaveOp, store_svcStopOp]
  · rfl

/-- Claim C2, counterexample to the original statement: a checkpoint of
the running session `csC2` (no `endTime`, no `duration`) persists an
entry with `duration` present and `endTime` absent, so the periodic
auto-save does not preserve the equivalence. -/
theorem claim_C2_counterexample :
    csC2.endTime = none ∧ csC2.duration = none ∧
    (autoSaveTickOp 5000 sysC2).store.currentSession =
      some { csC2 with duration := some 5000 } ∧
    entryFinalizedConsistent { csC2 with duration := some 5000 } = false := by
  decide

/-- Claim C2, witness: the amended theorem applied to the concrete
tracking state `sysC2`. -/
theorem claim_C2_witness :
    sysC2.session.isTracking = true ∧
    sysC2.session.currentSession = some csC2 ∧
    csC2.endTime = none ∧
    sysC2.autoSaveActive = true ∧
    (((autoSaveTickOp 5000 sysC2).store.currentSession =
        some { csC2 with duration := some (5000 - csC2.startTime) } ∧
      entryFinalizedConsistent
        { csC2 with duration := some (5000 - csC2.startTime) } = false) ∧
    ((stopTrackingOp 5000 sysC2).store.timeEntries =
        sysC2.store.timeEntries ++ [finalizeEntry 5000 csC2] ∧
      entryFinalizedConsistent (finalizeEntry 5000 csC2) = true) ∧
    entryFinalizedConsistent
      { csC2 with endTime := some 77, duration := some (77 - csC2.startTime) } = true ∧
    entryFinalizedConsistent (autoStopOldSession 600000 csC2) = true) := by
  exact ⟨rfl, rfl, rfl, rfl,
    claim_C2_finalization_equivalence 5000 600000 77 csC2 sysC2 rfl rfl rfl rfl⟩

/-- Claim C3 (confirmed): when a session stops via the idle-timeout path
— the idle check fires because `now - lastActivity` strictly exceeds the
threshold — the finalized entry appended to the log has
`endTime = lastActivity` (the last recorded activity instant, not the
firing time) and `duration = lastActivity - startTime`, and the
current-session slot is cleared. -/
theorem claim_C3_idle_stop_last_activity (s : Sys) (now h : Int) (cs : TimeEntry)
    (hTimer : s.svc.idleTimerActive = true)
    (hTrk : s.svc.isTracking = true)
    (hCs : s.svc.currentSession = some cs)
    (hCb : s.svc.hasTimeoutCallback = true)
    (hIdle : now - s.svc.lastActivity > h) :
    (idleTickOp now h s).store.timeEntries =
      s.store.timeEntries ++
        [{ cs with endTime := some s.svc.lastActivity,
                   duration := some (s.svc.lastActivity - cs.startTime) }] ∧
    (idleTickOp now h s).store.currentSession = none ∧
    (idleTickOp now h s).session.isTracking = false := by
  unfold idleTickOp
  rw [hTimer]
  simp only [Bool.not_true, Bool.false_eq_true, if_false, hTrk, hCs, hCb]
  rw [if_pos (by simpa [getIdleTime] using hIdle)]
  refine ⟨?_, ?_, ?_⟩
  · rw [store_svcStopOp, handleIdleTimeoutOp_entries]
  · rw [store_svcStopOp, handleIdleTimeoutOp_slot]
  · show (handleIdleTimeoutOp now cs s.svc.lastActivity s).session.isTracking = false
    exact (handleIdleTimeoutOp_session now cs s.svc.lastActivity s).1

/-- Claim C3, witness: with `startTime = 0`, last activity at `100000`
and threshold `600000`, the check firing at `700001` appends an entry
ending at `100000`, not at `700000`. -/
theorem claim_C3_witness :
    (700001 - sysC3w.svc.lastActivity > 600000) ∧
    (idleTickOp 700001 600000 sysC3w).store.timeEntries =
      sysC3w.store.timeEntries ++
        [{ entA with endTime := some sysC3w.svc.lastActivity,
                     duration := some (sysC3w.svc.lastActivity - entA.startTime) }] ∧
    (idleTickOp 700001 600000 sysC3w).store.currentSession = none ∧
    (idleTickOp 700001 600000 sysC3w).session.isTracking = false := by
  refine ⟨by decide, ?_⟩
  exact claim_C3_idle_stop_last_activity sysC3w 700001 600000 entA rfl rfl rfl rfl (by decide)

/-- Claim C4 (amended): recovery on process start reads the slot; a
non-finalized session with **nonzero** `startTime` and age strictly below
the threshold is resumed (tracking, idle detection and — for a positive
configured interval — the checkpoint timer all restart, store untouched);
a session whose age is at least the threshold is auto-stopped with
`endTime = startTime + threshold` and `duration = threshold`, appended to
the log, and the slot is cleared.  The nonzero-`startTime` restriction is
forced by the counterexample: the recovery check treats `startTime = 0`
as falsy and auto-stops such a session regardless of its age. -/
theorem claim_C4_recovery_policy (now h interval : Int) (cs : TimeEntry) (s : Sys)
    (hs : s.store.currentSession = some cs)
    (hEnd : cs.endTime = none)
    (hStart : cs.startTime ≠ 0)
    (hInt : 0 < interval) :
    (autoStopOldSession h cs).endTime = some (cs.startTime + h) ∧
    (autoStopOldSession h cs).duration = some h ∧
    (now - cs.startTime < h →
      (loadExistingSessionOp now h interval s).session.isTracking = true ∧
      (loadExistingSessionOp now h interval s).session.currentSession = some cs ∧
      (loadExistingSessionOp now h interval s).svc.isTracking = true ∧
      (loadExistingSessionOp now h interval s).svc.idleTimerActive = true ∧
      (loadExistingSessionOp now h interval s).autoSaveActive = true ∧
      (loadExistingSessionOp now h interval s).store = s.store) ∧
    (¬ now - cs.startTime < h →
      (loadExistingSessionOp now h interval s).store.timeEntries =
        s.store.timeEntries ++ [autoStopOldSession h cs] ∧
      (loadExistingSessionOp now h interval s).store.currentSession = none ∧
      (loadExistingSessionOp now h interval s).session = s.session) := by
  refine ⟨rfl, rfl, ?_, ?_⟩
  · intro hLt
    unfold loadExistingSessionOp
    rw [hs]
    simp only [hEnd]
    rw [show truthyOptInt none = false from rfl]
    simp only [Bool.false_eq_true, if_false]
    rw [show shouldResumeSession now h cs = true by
      unfold shouldResumeSession; rw [if_neg hStart]; simpa using hLt]
    simp only [if_true]
    refine ⟨?_, ?_, ?_, ?_, ?_, ?_⟩
    · rw [session_startAutoSaveOp]; rfl
    · rw [session_startAutoSaveOp]; rfl
    · rw [svc_startAutoSaveOp]; rfl
    · rw [svc_startAutoSaveOp]; rfl
    · exact active_startAutoSaveOp _ _ hInt
    · rw [store_startAutoSaveOp, store_svcStartOp]
  · intro hGe
    unfold loadExistingSessionOp
    rw [hs]
    simp only [hEnd]
    rw [show truthyOptInt none = false from rfl]
    simp only [Bool.false_eq_true, if_false]
    rw [show shouldResumeSession now h cs = false by
      unfold shouldResumeSession; rw [if_neg hStart]; simpa using hGe]
    simp only [Bool.false_eq_true, if_false]
    refine ⟨?_, rfl, rfl⟩
    show ((saveEntryStore now (autoStopOldSession h cs) s.store).1).timeEntries = _
    rw [saveEntryStore_timeEntries]

/-- Claim C4, counterexample to the original statement: the slot session
`csC4` has `startTime = 0`, no `endTime`, and age `1 < 600000` at
recovery, so the claim requires it to be resumed; the code instead
auto-stops it (tracking stays off and the auto-stopped entry is appended
to the log) because `shouldResumeSession` treats the falsy `startTime`
as missing. -/
theorem claim_C4_counterexample :
    (1 - csC4.startTime < 600000) ∧ csC4.endTime = none ∧
    (loadExistingSessionOp 1 600000 300 sysC4).session.isTracking = false ∧
    (loadExistingSessionOp 1 600000 300 sysC4).store.timeEntries =
      [{ csC4 with endTime := some 600000, duration := some 600000 }] ∧
    (loadExistingSessionOp 1 600000 300 sysC4).store.currentSession = none := by
  decide

/-- Claim C4, witness: the amended theorem applied to the concrete
recovery state `sysC4w` with `startTime = 10`. -/
theorem claim_C4_witness :
    sysC4w.store.currentSession = some csC4w ∧
    csC4w.endTime = none ∧
    csC4w.startTime ≠ 0 ∧
    ((0 : Int) < 300) ∧
    ((autoStopOldSession 600000 csC4w).endTime = some (csC4w.startTime + 600000) ∧
    (autoStopOldSession 600000 csC4w).duration = some 600000 ∧
    (11 - csC4w.startTime < 600000 →
      (loadExistingSessionOp 11 600000 300 sysC4w).session.isTracking = true ∧
      (loadExistingSessionOp 11 600000 300 sysC4w).session.currentSession = some csC4w ∧
      (loadExistingSessionOp 11 600000 300 sysC4w).svc.isTracking = true ∧
      (loadExistingSessionOp 11 600000 300 sysC4w).svc.idleTimerActive = true ∧
      (loadExistingSessionOp 11 600000 300 sysC4w).autoSaveActive = true ∧
      (loadExistingSessionOp 11 600000 300 sysC4w).store = sysC4w.store) ∧
    (¬ 11 - csC4w.startTime < 600000 →
      (loadExistingSessionOp 11 600000 300 sysC4w).store.timeEntries =
        sysC4w.store.timeEntries ++ [autoStopOldSession 600000 csC4w] ∧
      (loadExistingSessionOp 11 600000 300 sysC4w).store.currentSession = none ∧
      (loadExistingSessionOp 11 600000 300 sysC4w).session = sysC4w.session)) := by
  exact ⟨rfl, rfl, by decide, by decide,
    claim_C4_recovery_policy 11 600000 300 csC4w sysC4w rfl rfl (by decide) (by decide)⟩

/-- Claim C5 (amended): the engine does not wait for durable writes
before transitioning in-memory state.  `startTracking` sets `isTracking`
and `currentSession` before its slot write, so a failed write leaves the
engine tracking an unpersisted session (store unchanged).
`stopTracking` clears `isTracking`/`currentSession` only after its
writes, so a failed log append leaves `isTracking = true`; but the
session object has already been finalized in memory (its `endTime` and
`duration` are set) before the write, so the pre-call state is not
restored there either.  In both cases the durable store's log and slot
are unchanged by the failure. -/
theorem claim_C5_failed_write_behavior (now : Int) (today pn wp : String)
    (interval : Int) (s u : Sys) (cs : TimeEntry)
    (hIdleSt : s.session.isTracking = false)
    (hTrk : u.session.isTracking = true)
    (hCs : u.session.currentSession = some cs) :
    (errState (startTrackingF now today pn wp interval false s)).map
        (fun x => (x.session.isTracking, x.store)) = some (true, s.store) ∧
    (errState (stopTrackingF now false true u)).map
        (fun x => (x.session.isTracking, x.session.currentSession,
                   x.store.timeEntries, x.store.currentSession)) =
      some (true, some (finalizeEntry now cs),
            u.store.timeEntries, u.store.currentSession) := by
  constructor
  · unfold startTrackingF
    rw [hIdleSt]
    simp only [Bool.false_eq_true, if_false]
    show Option.map _ (some _) = _
    simp only [Option.map_some', Option.some.injEq, Prod.mk.injEq]
    refine ⟨?_, ?_⟩
    · rw [session_startAutoSaveOp]
      rfl
    · rw [store_startAutoSaveOp, store_svcStartOp]
  · rcases u with ⟨store, ⟨it, cso, la⟩, svc, asa, tr⟩
    cases it with
    | false => exact absurd hTrk (by simp)
    | true =>
      cases cso with
      | none => exact absurd hCs (by simp)
      | some c =>
        have hc : c = cs := by simpa using hCs
        subst hc
        cases asa <;> cases hm : store.metadata <;>
          simp [stopTrackingF, saveEntryAttempt, getOrInitMetadata, errState,
                svcStopOp, svcStopTrackingPure, stopAutoSaveOp, hm]

/-- Claim C5, counterexample to the original statement: from the idle
state `sysC5a`, `startTracking` with a failing slot write propagates the
failure with `isTracking` already `true` — the in-memory `SessionState`
is not left unchanged. -/
theorem claim_C5_counterexample :
    sysC5a.session.isTracking = false ∧
    (errState (startTrackingF 100 "2025-04-01" "alpha" "/w" 300 false sysC5a)).map
      (fun x => x.session.isTracking) = some true := by
  decide

/-- Claim C5, witness: the amended theorem applied to the concrete idle
state `sysC5a` and tracking state `sysC5b`. -/
theorem claim_C5_witness :
    sysC5a.session.isTracking = false ∧
    sysC5b.session.isTracking = true ∧
    sysC5b.session.currentSession = some csC5 ∧
    ((errState (startTrackingF 100 "2025-04-01" "alpha" "/w" 300 false sysC5a)).map
        (fun x => (x.session.isTracking, x.store)) = some (true, sysC5a.store) ∧
      (errState (stopTrackingF 100 false true sysC5b)).map
          (fun x => (x.session.isTracking, x.session.currentSession,
                     x.store.timeEntries, x.store.currentSession)) =
        some (true, some (finalizeEntry 100 csC5),
              sysC5b.store.timeEntries, sysC5b.store.currentSession)) := by
  exact ⟨rfl, rfl, rfl,
    claim_C5_failed_write_behavior 100 "2025-04-01" "alpha" "/w" 300
      sysC5a sysC5b csC5 rfl rfl rfl⟩

/-- Claim C6 (amended): on a manual `stopTracking` both the idle timer
and the checkpoint timer are cancelled before the finalizing writes, and
the emitted trace is exactly cancel-idle, cancel-auto-save, write-log,
write-metadata, write-slot.  On an idle-triggered stop, however, only the
checkpoint timer is cancelled before the writes: the idle interval is
cleared after the timeout callback's writes complete, so its
cancellation appears after the log append and the slot clear in the
trace. -/
theorem claim_C6_timer_cancellation_order (now h : Int) (s : Sys)
    (cs cs2 : TimeEntry) (m : TrackerMetadata)
    (hTrk : s.session.isTracking = true) (hCs : s.session.currentSession = some cs)
    (hTimer : s.svc.idleTimerActive = true) (hAuto : s.autoSaveActive = true)
    (hMeta : s.store.metadata = some m)
    (hSvcTrk : s.svc.isTracking = true) (hSvcCs : s.svc.currentSession = some cs2)
    (hCb : s.svc.hasTimeoutCallback = true) (hIdle : now - s.svc.lastActivity > h) :
    (stopTrackingOp now s).trace =
      s.trace ++ [Event.cancelIdleTimer, Event.cancelAutoSave,
        Event.writeEntries, Event.writeMetadata, Event.writeSlot] ∧
    timersCancelledBeforeFinalWrite
      [Event.cancelIdleTimer, Event.cancelAutoSave,
        Event.writeEntries, Event.writeMetadata, Event.writeSlot] = true ∧
    (idleTickOp now h s).trace =
      s.trace ++ [Event.cancelAutoSave, Event.writeEntries,
        Event.writeMetadata, Event.writeSlot, Event.cancelIdleTimer] ∧
    timersCancelledBeforeFinalWrite
      [Event.cancelAutoSave, Event.writeEntries,
        Event.writeMetadata, Event.writeSlot, Event.cancelIdleTimer] = false := by
  rcases s with ⟨⟨entries, slot, meta⟩, ⟨it, cso, la⟩,
    ⟨ita, lact, strk, scs, scb, cnt⟩, asa, tr⟩
  simp only at hTrk hCs hTimer hAuto hMeta hSvcTrk hSvcCs hCb hIdle
  subst hTrk hCs hTimer hAuto hMeta hSvcTrk hSvcCs hCb
  refine ⟨?_, by decide, ?_, by decide⟩
  · simp [stopTrackingOp, svcStopOp, svcStopTrackingPure, stopAutoSaveOp,
      runStore, saveEntryStore, getOrInitMetadata, saveCurrentSessionStore,
      finalizeEntry]
  · simp [idleTickOp, getIdleTime, hIdle, handleIdleTimeoutOp, svcStopOp,
      svcStopTrackingPure, stopAutoSaveOp, runStore, saveEntryStore,
      getOrInitMetadata, saveCurrentSessionStore]

/-- Claim C6, counterexample to the original statement: an idle-triggered
stop of the concrete tracking state `sysC6` emits the log append and the
slot clear before the idle-timer cancellation, so the idle timer was
still installed when the finalizing write happened. -/
theorem claim_C6_counterexample :
    (idleTickOp 700051 600000 sysC6).trace =
      [Event.cancelAutoSave, Event.writeEntries, Event.writeMetadata,
       Event.writeSlot, Event.cancelIdleTimer] ∧
    (idleTickOp 700051 600000 sysC6).store.timeEntries ≠ [] ∧
    timersCancelledBeforeFinalWrite
      [Event.cancelAutoSave, Event.writeEntries, Event.writeMetadata,
       Event.writeSlot, Event.cancelIdleTimer] = false := by
  decide

/-- Claim C6, witness: the amended theorem applied to the concrete
tracking state `sysC6`. -/
theorem claim_C6_witness :
    sysC6.session.isTracking = true ∧
    sysC6.svc.idleTimerActive = true ∧
    sysC6.autoSaveActive = true ∧
    (700051 - sysC6.svc.lastActivity > 600000) ∧
    ((stopTrackingOp 700051 sysC6).trace =
      sysC6.trace ++ [Event.cancelIdleTimer, Event.cancelAutoSave,
        Event.writeEntries, Event.writeMetadata, Event.writeSlot] ∧
    timersCancelledBeforeFinalWrite
      [Event.cancelIdleTimer, Event.cancelAutoSave,
        Event.writeEntries, Event.writeMetadata, Event.writeSlot] = true ∧
    (idleTickOp 700051 600000 sysC6).trace =
      sysC6.trace ++ [Event.cancelAutoSave, Event.writeEntries,
        Event.writeMetadata, Event.writeSlot, Event.cancelIdleTimer] ∧
    timersCancelledBeforeFinalWrite
      [Event.cancelAutoSave, Event.writeEntries,
        Event.writeMetadata, Event.writeSlot, Event.cancelIdleTimer] = false) := by
  exact ⟨rfl, rfl, rfl, by decide,
    claim_C6_timer_cancellation_order 700051 600000 sysC6 csC6 csC6
      { version := "1.0.0", totalTrackedMs := 0, projectCount := 0, lastSaved := 0 }
      rfl rfl rfl rfl rfl rfl rfl rfl (by decide)⟩

/-- Claim C7 (confirmed): `stopTracking` is idempotent — for every system
state and any two stop instants, calling it twice yields exactly the
state of a single call (memory, log, metadata, slot and the emitted
trace), because the first effective call leaves `isTracking = false` and
the second call's guard then makes it a pure no-op that appends nothing. -/
theorem claim_C7_stop_idempotent (now1 now2 : Int) (s : Sys) :
    stopTrackingOp now2 (stopTrackingOp now1 s) = stopTrackingOp now1 s := by
  rcases s with ⟨store, ⟨it, cso, la⟩, svc, asa, tr⟩
  cases it <;> cases cso <;> rfl

/-- Claim C8 (amended): for every log and year-month, `getMonthlyReport`
includes exactly the entries whose date starts with the month prefix and
whose duration is truthy (present and nonzero): `totalSessions` counts
them, `totalHours` is the two-decimal rounding of the sum of their
durations converted to hours, and the project breakdown's entry lists
contain exactly those entries.  Entries excluded from totals remain
visible through `getAllEntries`.  (The original claim's "have a
duration" fails for a present-but-zero duration, see the
counterexample.) -/
theorem claim_C8_monthly_report_totals (ym : String) (entries : List TimeEntry) :
    (getMonthlyReport ym entries).totalSessions =
      (entries.filter (fun e => inMonth ym e && truthyDuration e)).length ∧
    (getMonthlyReport ym entries).totalHours =
      round2 (hoursSum (entries.filter (fun e => inMonth ym e && truthyDuration e))) ∧
    (∀ x : TimeEntry,
      x ∈ pmEntries (getMonthlyReport ym entries).projects ↔
        x ∈ entries.filter (fun e => inMonth ym e && truthyDuration e)) ∧
    (∀ x : TimeEntry, x ∈ entries →
      x ∈ getAllEntriesOf { timeEntries := entries }) := by
  have hff := filter_filter_bool truthyDuration (fun e => inMonth ym e) entries
  refine ⟨?_, ?_, ?_, ?_⟩
  · show ((getEntriesForMonth ym entries).foldl reportStep
      { projectMap := [], totalHours := 0, totalSessions := 0 }).totalSessions = _
    rw [foldl_reportStep_sessions]
    unfold getEntriesForMonth
    rw [hff]
    simp
  · show round2 (((getEntriesForMonth ym entries).foldl reportStep
      { projectMap := [], totalHours := 0, totalSessions := 0 }).totalHours) = _
    rw [foldl_reportStep_hours]
    unfold getEntriesForMonth
    rw [hff]
    norm_num
  · intro x
    show x ∈ pmEntries (((getEntriesForMonth ym entries).foldl reportStep
      { projectMap := [], totalHours := 0, totalSessions := 0 }).projectMap.map
        (fun p => (p.1, { p.2 with hours := round2 p.2.hours }))) ↔ _
    rw [pmEntries_roundMap, foldl_reportStep_mem]
    unfold getEntriesForMonth
    rw [hff]
    simp [pmEntries]
  · intro x hx
    exact hx

/-- Claim C8, counterexample to the original statement: the entry `entC8`
is dated inside the month and has a duration (`some 0`), so the claim
requires it to be included; the report instead counts zero sessions and
lists no project for it, because the loop tests truthiness rather than
presence of the duration. -/
theorem claim_C8_counterexample :
    entC8.duration.isSome = true ∧ inMonth "2025-04" entC8 = true ∧
    (getMonthlyReport "2025-04" [entC8]).totalSessions = 0 ∧
    (getMonthlyReport "2025-04" [entC8]).projects = [] := by
  decide

/-- Claim C9 (amended): `updateActivity` leaves `lastActivity` unchanged
when tracking is not active and refreshes it to the activity instant when
tracking; the service's `stopTracking` never modifies `lastActivity`;
but `updateActivity` is *not* the only write path: the service's
`startTracking` also resets `lastActivity` to the start instant (which
is what actually prevents a previous session's activity from leaking
into a new one). -/
theorem claim_C9_lastActivity_write_paths (now : Int) (cs : TimeEntry)
    (v w : IdleServiceState)
    (hv : v.isTracking = false) (hw : w.isTracking = true) :
    updateActivity now v = v ∧
    updateActivity now w = { w with lastActivity := now } ∧
    ((svcStopTrackingPure v).1).lastActivity = v.lastActivity ∧
    ((svcStartTrackingPure cs now v).1).lastActivity = now := by
  refine ⟨?_, ?_, rfl, rfl⟩
  · unfold updateActivity
    rw [hv]
    simp
  · unfold updateActivity
    rw [hw]
    simp

/-- Claim C9, counterexample to the original statement: the subsystem's
`startTracking` — an operation other than `updateActivity` — changes
`lastActivity` from 5 to 100, so `updateActivity` is not the only write
path for `lastActivity`. -/
theorem claim_C9_counterexample :
    svcC9.lastActivity = 5 ∧
    ((svcStartTrackingPure entA 100 svcC9).1).lastActivity = 100 := by
  decide

/-- Claim C9, witness: the amended theorem applied to the concrete
non-tracking state `svcC9` and the tracking state it starts. -/
theorem claim_C9_witness :
    svcC9.isTracking = false ∧
    (svcStartTrackingPure entA 100 svcC9).1.isTracking = true ∧
    (updateActivity 100 svcC9 = svcC9 ∧
      updateActivity 200 ((svcStartTrackingPure entA 100 svcC9).1) =
        { (svcStartTrackingPure entA 100 svcC9).1 with lastActivity := 200 } ∧
      ((svcStopTrackingPure svcC9).1).lastActivity = svcC9.lastActivity ∧
      ((svcStartTrackingPure entA 200 svcC9).1).lastActivity = 200) := by
  refine ⟨rfl, rfl, ?_⟩
  have h1 := claim_C9_lastActivity_write_paths 100 entA svcC9
    ((svcStartTrackingPure entA 100 svcC9).1) rfl rfl
  have h2 := claim_C9_lastActivity_write_paths 200 entA svcC9
    ((svcStartTrackingPure entA 100 svcC9).1) rfl rfl
  exact ⟨h1.1, h2.2.1, h1.2.2.1, h2.2.2.2⟩

/-- Claim C10 (confirmed): a log entry whose duration is exactly 0
milliseconds is treated by `getMonthlyReport` exactly like an entry with
no duration at all — removing it, or blanking its duration, yields the
identical report, so it contributes to no `totalHours`, no
`totalSessions` and no project entry list. -/
theorem claim_C10_zero_duration_excluded (ym : String) (l1 l2 : List TimeEntry)
    (e : TimeEntry) (he : e.duration = some 0) :
    getMonthlyReport ym (l1 ++ e :: l2) = getMonthlyReport ym (l1 ++ l2) ∧
    getMonthlyReport ym (l1 ++ { e with duration := none } :: l2) =
      getMonthlyReport ym (l1 ++ l2) := by
  constructor
  · exact report_skips_falsy ym l1 l2 e (by simp [truthyDuration, truthyOptInt, he])
  · exact report_skips_falsy ym l1 l2 _ (by simp [truthyDuration, truthyOptInt])

/-- Claim C10, witness: the theorem applied to the zero-duration entry
`entC8` sitting in a log next to the one-hour entry `entC10b`. -/
theorem claim_C10_witness :
    entC8.duration = some 0 ∧
    (getMonthlyReport "2025-04" ([] ++ entC8 :: [entC10b]) =
        getMonthlyReport "2025-04" ([] ++ [entC10b]) ∧
      getMonthlyReport "2025-04" ([] ++ { entC8 with duration := none } :: [entC10b]) =
        getMonthlyReport "2025-04" ([] ++ [entC10b])) := by
  exact ⟨rfl, claim_C10_zero_duration_excluded "2025-04" [] [entC10b] entC8 rfl⟩
